import Mathlib

/-!
Verification of the continuous voice-command orchestrator of the larkx9
repository: the `VoiceRecognitionService` (error classification, recovery
backoff, result handling, start/stop guarding, event stream) and the
command de-duplication of the assistant component.

Each definition is a shallow embedding of the correspondingly named
function of the TypeScript source.  Millisecond delays are rationals
(the backoff curve uses the factor 1.2); timestamps are integers;
counters are naturals.
-/

namespace Larkx9

/-- `listLeads p s` decides whether the character list `p` occurs at the
head of `s` (used to build JavaScript `String.includes`). -/
def listLeads : List Char → List Char → Bool
  | [], _ => true
  | _ :: _, [] => false
  | a :: as, b :: bs => a = b && listLeads as bs

/-- `containsSub s pat` is JavaScript `s.includes(pat)`: `pat` occurs as a
contiguous substring of `s`. -/
def containsSub (s pat : String) : Bool :=
  go pat.data s.data
where
  go (p : List Char) : List Char → Bool
    | [] => listLeads p []
    | c :: t => listLeads p (c :: t) || go p t

/-- Outcome of `VoiceRecognitionService.attemptErrorRecovery`: either a
`setTimeout(() => this.restartRecognition(), delayMs)` call, an immediate
synchronous `restartRecognition()` call (the `default` branch), or the
`permission_timeout` branch which only emits a `permission_required`
event and schedules no restart. -/
inductive RecoveryAction where
  | scheduleRestart (delayMs : ℚ)
  | restartNow
  | promptPermission
deriving DecidableEq, Repr

/-- `VoiceRecognitionService.attemptErrorRecovery(errorType)` (part_001
lines 546–576), as a function of the error type string and the current
`recognitionAttempts` counter.  The `network_error` branch schedules the
restart after `2000 * Math.min(this.recognitionAttempts, 5)` ms; device
errors after a fixed 3000 ms; `aborted` after 500 ms; `permission_timeout`
emits `permission_required` with no restart; every other type calls
`restartRecognition()` directly. -/
def attemptErrorRecovery (errorType : String) (recognitionAttempts : ℕ) :
    RecoveryAction :=
  if errorType = "network_error" then
    .scheduleRestart (2000 * min (recognitionAttempts : ℚ) 5)
  else if errorType = "audio_capture_error" ∨ errorType = "device_busy" then
    .scheduleRestart 3000
  else if errorType = "permission_timeout" then
    .promptPermission
  else if errorType = "aborted" then
    .scheduleRestart 500
  else
    .restartNow

/-- The delay used inside `VoiceRecognitionService.restartRecognition`
(part_001 line 610): `Math.min(150 * Math.pow(1.2,
Math.min(this.recognitionAttempts - 1, 3)), 3000)`, evaluated after the
method has already incremented `recognitionAttempts`; the argument here is
that post-increment value. -/
def restartRecognitionDelay (recognitionAttempts : ℕ) : ℚ :=
  min (150 * (6 / 5 : ℚ) ^ min (recognitionAttempts - 1) 3) 3000

/-- Total delay from `attemptErrorRecovery(errorType)` until the
`startListening()` call of the resulting `restartRecognition`, starting
from counter value `recognitionAttempts`: the branch-specific first delay
plus the backoff `restartRecognition` adds after incrementing the counter.
`none` when no restart is scheduled at all. -/
def recoveryTotalDelay (errorType : String) (recognitionAttempts : ℕ) :
    Option ℚ :=
  match attemptErrorRecovery errorType recognitionAttempts with
  | .scheduleRestart d => some (d + restartRecognitionDelay (recognitionAttempts + 1))
  | .restartNow => some (restartRecognitionDelay (recognitionAttempts + 1))
  | .promptPermission => none

/-- The error-classification chain of
`VoiceRecognitionService.handleError` (part_001 lines 457–521): from the
error name and message it derives the `errorType` string and the
`recoverable` flag (initialised `true`, cleared only for
`permission_denied` and `device_not_found`). -/
def classifyError (errorName errorMessage : String) : String × Bool :=
  if containsSub errorMessage "Permission request timed out" then
    ("permission_timeout", true)
  else if errorName = "NotAllowedError" ∨ errorName = "PermissionDeniedError" then
    ("permission_denied", false)
  else if errorName = "NotFoundError" ∨ errorName = "DevicesNotFoundError" then
    ("device_not_found", false)
  else if errorName = "NotReadableError" ∨ errorName = "TrackStartError" then
    ("device_busy", true)
  else if errorName = "NetworkError" ∨ containsSub errorMessage "network" then
    ("network_error", true)
  else if errorName = "AbortError" then
    ("aborted", true)
  else if errorName = "AudioCapturingError" then
    ("audio_capture_error", true)
  else
    (if errorName = "" then "unknown" else errorName, true)

/-- The recovery decision taken at the end of
`VoiceRecognitionService.handleError`: `attemptErrorRecovery` is invoked
exactly when the classified error is `recoverable`. -/
def handleErrorRecovery (errorName errorMessage : String)
    (recognitionAttempts : ℕ) : Option RecoveryAction :=
  let c := classifyError errorName errorMessage
  if c.2 then some (attemptErrorRecovery c.1 recognitionAttempts) else none

/-- Whether a recovery decision actually schedules (or immediately
performs) a restart of recognition. -/
def schedulesRestart : Option RecoveryAction → Bool
  | some (.scheduleRestart _) => true
  | some .restartNow => true
  | some .promptPermission => false
  | none => false

/-! ## Service state and the start/stop lifecycle -/

/-- The mutable fields of `VoiceRecognitionService` relevant to the
session lifecycle, plus a ghost field `activeStreams` counting the live
platform capture streams (incremented by a successful
`recognition.start()`, zeroed when the stream stops or ends). -/
structure VRState where
  isListening : Bool
  startingListening : Bool
  manualStop : Bool
  recognitionAttempts : ℕ
  recognitionState : String
  activeStreams : ℕ
deriving DecidableEq, Repr

/-- The service's state at construction: all flags `false`, counters `0`,
`recognitionState` `'inactive'`. -/
def initState : VRState :=
  { isListening := false, startingListening := false, manualStop := false
    recognitionAttempts := 0, recognitionState := "inactive", activeStreams := 0 }

/-- `VoiceRecognitionService.startListening` (part_001 lines 394–423).
Returns unchanged state when `isListening || _startingListening` (the
guard at the top).  Otherwise `recognition.start()` is invoked: `startOk`
says whether the platform call succeeds.  On success `isListening` is set
and one capture stream becomes active; on failure the catch block clears
the starting flag and calls `restartRecognition()`, which increments
`recognitionAttempts` and schedules a later `startListening` (a separate
step of any trace). -/
def startListening (startOk : Bool) (s : VRState) : VRState :=
  if s.isListening || s.startingListening then s
  else if startOk then
    { s with isListening := true, startingListening := false,
             recognitionState := "listening",
             activeStreams := s.activeStreams + 1 }
  else
    { s with startingListening := false,
             recognitionAttempts := s.recognitionAttempts + 1 }

/-- `VoiceRecognitionService.handleStart` (part_001 lines 594–598): the
platform's confirmation that recognition started; sets
`isListening = true` and `recognitionState = 'listening'` and touches
nothing else. -/
def handleStart (s : VRState) : VRState :=
  { s with isListening := true, recognitionState := "listening" }

/-- `VoiceRecognitionService.handleEnd` (part_001 lines 581–589): the
platform stream has ended, so no stream is active and `isListening` is
cleared; when the stop was not manual, `restartRecognition()` runs and
increments `recognitionAttempts` (its delayed `startListening` is a
separate trace step). -/
def handleEnd (s : VRState) : VRState :=
  { s with isListening := false, activeStreams := 0,
           recognitionAttempts :=
             if s.manualStop then s.recognitionAttempts
             else s.recognitionAttempts + 1 }

/-- Modelled from the spec: `stopListening` of `VoiceRecognitionService`
is absent from the provided sources; per §4.1 `stop(manual:true)`
terminates the active stream, records the manual stop (so `handleEnd`
does not auto-restart) and releases the capture resource. -/
def stopListening (s : VRState) : VRState :=
  { s with isListening := false, manualStop := true,
           recognitionState := "inactive", activeStreams := 0 }

/-- One externally triggered operation on the service: a `startListening`
call (with the platform accepting or rejecting `recognition.start()`), a
manual stop, or the platform ending the stream. -/
inductive VROp where
  | start (ok : Bool)
  | stopManual
  | streamEnded
deriving DecidableEq, Repr

/-- Apply one operation to the service state. -/
def voiceStep (s : VRState) : VROp → VRState
  | .start ok => startListening ok s
  | .stopManual => stopListening s
  | .streamEnded => handleEnd s

/-- Run a sequence of operations from the freshly constructed service. -/
def voiceRun (ops : List VROp) : VRState :=
  ops.foldl voiceStep initState

/-! ## Result handling -/

/-- The four disjoint exits of `VoiceRecognitionService.handleResult`:
wake-word handling, high-priority processing of a transcript containing
`'miranda'`, the silent drop while the system is speaking, and normal
command processing. -/
inductive ResultAction where
  | wakeWord
  | processHighPriority (transcript : String)
  | drop
  | process (transcript : String)
deriving DecidableEq, Repr

/-- `VoiceRecognitionService.handleResult` (part_001 lines 428–452), as a
function of the wake-word predicate `isWakeWordDetected` (whose body is
outside the provided sources, so it stays a parameter), the
`isSystemSpeaking` flag and the transcript of `event.results[0][0]`.
The checks run in source order: wake word first, then
`transcript.includes('miranda')`, then the `isSystemSpeaking` gate, then
`processCommand(transcript)`. -/
def handleResult (isWakeWordDetected : String → Bool)
    (isSystemSpeaking : Bool) (transcript : String) : ResultAction :=
  if isWakeWordDetected transcript then .wakeWord
  else if containsSub transcript "miranda" then .processHighPriority transcript
  else if isSystemSpeaking then .drop
  else .process transcript

/-- `handleResult` applied to a full recognition result carrying its
`isFinal` flag: the source body never reads `event.results[...].isFinal`,
so the flag is an unused argument. -/
def handleResultFull (isWakeWordDetected : String → Bool)
    (isSystemSpeaking : Bool) (transcript : String) (_isFinal : Bool) :
    ResultAction :=
  handleResult isWakeWordDetected isSystemSpeaking transcript

/-! ## JavaScript string operations used by the command handler -/

/-- JavaScript whitespace as used by `String.prototype.trim` (the
characters occurring in this development). -/
def isJsWS (c : Char) : Bool :=
  c = ' ' || c = '\t' || c = '\n' || c = '\r'

/-- JavaScript `s.trim()`: strip leading and trailing whitespace. -/
def jsTrim (s : String) : String :=
  ⟨((s.data.dropWhile isJsWS).reverse.dropWhile isJsWS).reverse⟩

/-- JavaScript `s.toLowerCase()` (ASCII case mapping). -/
def jsToLower (s : String) : String :=
  ⟨s.data.map Char.toLower⟩

/-! ## Command de-duplication (part_002 `handleCommand`) -/

/-- The two refs driving de-duplication in the assistant component:
`lastCommandRef` and `lastCommandTimeRef` (part_002 lines 115–116;
`lastCommandTime` in epoch milliseconds, initially `''` and `0`). -/
structure CmdState where
  lastCommand : String
  lastCommandTime : ℤ
deriving DecidableEq, Repr

/-- How `handleCommand` disposed of the incoming command: the early
return on an empty (after trim) command, the silent duplicate drop, or
acceptance into actual command processing. -/
inductive CmdOutcome where
  | ignoredEmpty
  | droppedDuplicate
  | accepted
deriving DecidableEq, Repr

/-- The guard and de-duplication head of `handleCommand` (part_002 lines
157–172): return if `!command?.trim()`; compute
`commandLower = command.toLowerCase().trim()`; drop when it equals
`lastCommandRef.current` and `now - lastCommandTimeRef.current < 2000`;
otherwise store `commandLower` and `now` in the refs and proceed. -/
def handleCommand (s : CmdState) (command : String) (now : ℤ) :
    CmdState × CmdOutcome :=
  if jsTrim command = "" then (s, .ignoredEmpty)
  else
    let commandLower := jsTrim (jsToLower command)
    if commandLower = s.lastCommand ∧ now - s.lastCommandTime < 2000 then
      (s, .droppedDuplicate)
    else
      ({ lastCommand := commandLower, lastCommandTime := now }, .accepted)

/-! ## The `useSpeechRecognition` hook's result handler (part_005) -/

/-- The two window events `recognitionInstance.onresult` can dispatch:
`lark-audio-detected` for a final result and `lark-interim-transcript`
for an interim one, each carrying the transcript, the confidence and the
`isFinal` flag. -/
inductive HookEvent where
  | audioDetected (transcript : String) (confidence : ℚ) (isFinal : Bool)
  | interimTranscript (transcript : String) (confidence : ℚ) (isFinal : Bool)
deriving DecidableEq, Repr

/-- `recognitionInstance.onresult` of `useSpeechRecognition` (part_005
lines 46–77): a final result sets the transcript state and dispatches
`lark-audio-detected` with `isFinal: true`; an interim result dispatches
`lark-interim-transcript` with `isFinal: false`. -/
def hookOnresult (transcriptText : String) (confidence : ℚ)
    (isFinal : Bool) : HookEvent :=
  if isFinal then .audioDetected transcriptText confidence true
  else .interimTranscript transcriptText confidence false

/-! ## Event stream (rxjs `Subject` backing `VoiceRecognitionService.events`) -/

/-- Model of the rxjs `Subject` used for `VoiceRecognitionService.events`
(part_001 line 97) and exposed by `getEvents()` (lines 682–684): a plain
subject keeps its current subscriber list and, on `next`, delivers the
value to exactly those subscribers; it has no buffer or replay.
Subscribers are numbered by a fresh-id counter; `delivered` logs every
`(subscriber, event)` delivery that has happened. -/
structure EventBus (α : Type) where
  nextId : ℕ
  subscribers : List ℕ
  delivered : List (ℕ × α)
deriving DecidableEq, Repr

/-- One interaction with the event subject: a new subscription, an
unsubscription, or the orchestrator publishing an event via
`this.events.next(...)`. -/
inductive BusOp (α : Type) where
  | subscribe
  | unsubscribe (id : ℕ)
  | publish (e : α)
deriving DecidableEq, Repr

/-- Subject semantics: `subscribe` registers a fresh handler id,
`unsubscribe` removes it, and `publish` delivers the event to the
handlers subscribed at that moment — and to no one else. -/
def busStep {α : Type} (s : EventBus α) : BusOp α → EventBus α
  | .subscribe =>
      { s with nextId := s.nextId + 1, subscribers := s.subscribers ++ [s.nextId] }
  | .unsubscribe i =>
      { s with subscribers := s.subscribers.filter (fun j => j ≠ i) }
  | .publish e =>
      { s with delivered := s.delivered ++ s.subscribers.map (fun i => (i, e)) }

/-- Run a sequence of bus operations from a given subject state. -/
def busRun {α : Type} (s : EventBus α) (ops : List (BusOp α)) : EventBus α :=
  ops.foldl busStep s

/-- A freshly created subject: no subscribers, nothing delivered. -/
def busInit {α : Type} : EventBus α :=
  { nextId := 0, subscribers := [], delivered := [] }

/-! ## Helper lemmas -/

lemma attemptErrorRecovery_network (a : ℕ) :
    attemptErrorRecovery "network_error" a
      = .scheduleRestart (2000 * min (a : ℚ) 5) := by
  unfold attemptErrorRecovery
  rw [if_pos rfl]

lemma attemptErrorRecovery_busy (a : ℕ) :
    attemptErrorRecovery "device_busy" a = .scheduleRestart 3000 := by
  unfold attemptErrorRecovery
  rw [if_neg (by decide), if_pos (by decide)]

lemma attemptErrorRecovery_audio (a : ℕ) :
    attemptErrorRecovery "audio_capture_error" a = .scheduleRestart 3000 := by
  unfold attemptErrorRecovery
  rw [if_neg (by decide), if_pos (by decide)]

lemma attemptErrorRecovery_aborted (a : ℕ) :
    attemptErrorRecovery "aborted" a = .scheduleRestart 500 := by
  unfold attemptErrorRecovery
  rw [if_neg (by decide), if_neg (by decide), if_neg (by decide), if_pos (by decide)]

lemma restartRecognitionDelay_succ (a : ℕ) :
    restartRecognitionDelay (a + 1)
      = min (150 * (6 / 5 : ℚ) ^ min a 3) 3000 := by
  unfold restartRecognitionDelay
  simp

/-- C1 (claim as stated is false): for `consecutiveFailures`
(`recognitionAttempts`) equal to 4, the network-error retry delay is
`2000·min(4,5) + min(150·1.2^min(4,3), 3000) = 41296/5` ms (8259.2 ms),
not the claimed `min(150·1.2^3, 3000) = 1296/5` ms (259.2 ms): the
`network_error` branch waits `2000·min(attempts,5)` ms before
`restartRecognition` even runs. -/
theorem networkErrorDelay_ne_backoff_formula :
    recoveryTotalDelay "network_error" 4 = some (41296 / 5) ∧
    recoveryTotalDelay "network_error" 4
      ≠ some (min (150 * (6 / 5 : ℚ) ^ min 4 3) 3000) := by
  have h : recoveryTotalDelay "network_error" 4
      = some (2000 * min ((4 : ℕ) : ℚ) 5 + restartRecognitionDelay 5) := by
    unfold recoveryTotalDelay
    rw [attemptErrorRecovery_network]
  rw [h, restartRecognitionDelay_succ]
  constructor
  · norm_num
  · intro hcontra
    rw [Option.some_inj] at hcontra
    norm_num at hcontra

/-- C1 (amended): for every capture error classified `network_error` with
failure counter `a`, the recovery logic schedules `restartRecognition`
after `2000·min(a,5)` ms, and recognition is then restarted after a
further `min(150·1.2^min(a,3), 3000)` ms of backoff, for a total retry
delay of `2000·min(a,5) + min(150·1.2^min(a,3), 3000)` ms; the claimed
formula alone is the backoff of `restartRecognition`, not the
network-error delay. -/
theorem networkErrorDelay_eq (a : ℕ) :
    attemptErrorRecovery "network_error" a
      = .scheduleRestart (2000 * min (a : ℚ) 5) ∧
    recoveryTotalDelay "network_error" a
      = some (2000 * min (a : ℚ) 5 + min (150 * (6 / 5 : ℚ) ^ min a 3) 3000) := by
  refine ⟨attemptErrorRecovery_network a, ?_⟩
  unfold recoveryTotalDelay
  rw [attemptErrorRecovery_network, restartRecognitionDelay_succ]

/-- C6: for every capture error classified `device_busy` or
`audio_capture_error`, `attemptErrorRecovery` schedules the restart after
a fixed delay of exactly 3000 ms, and for `aborted` after exactly 500 ms,
independent of the failure counter. -/
theorem fixed_delay_device_and_aborted (a : ℕ) :
    attemptErrorRecovery "device_busy" a = .scheduleRestart 3000 ∧
    attemptErrorRecovery "audio_capture_error" a = .scheduleRestart 3000 ∧
    attemptErrorRecovery "aborted" a = .scheduleRestart 500 :=
  ⟨attemptErrorRecovery_busy a, attemptErrorRecovery_audio a,
   attemptErrorRecovery_aborted a⟩

/-- C2 (claim as stated is false): a successful transition into the
listening state via `handleStart` — entered with 2 accumulated failures —
confirms listening but leaves `recognitionAttempts` at 2 instead of
resetting it to 0. -/
theorem handleStart_not_reset_counterexample :
    (handleStart { initState with recognitionAttempts := 2 }).isListening = true ∧
    (handleStart { initState with recognitionAttempts := 2 }).recognitionState
      = "listening" ∧
    (handleStart { initState with recognitionAttempts := 2 }).recognitionAttempts
      ≠ 0 := by
  refine ⟨rfl, rfl, ?_⟩
  decide

/-- C2 (amended): on every successful transition into the Listening state
— `handleStart`, and the success path of `startListening` — the
consecutive-failure counter `recognitionAttempts` is left unchanged; the
code never resets it to 0. -/
theorem handleStart_preserves_recognitionAttempts (s : VRState) :
    (handleStart s).recognitionAttempts = s.recognitionAttempts ∧
    (handleStart s).isListening = true ∧
    (handleStart s).recognitionState = "listening" ∧
    (startListening true s).recognitionAttempts = s.recognitionAttempts := by
  refine ⟨rfl, rfl, rfl, ?_⟩
  unfold startListening
  split
  · rfl
  · rw [if_pos rfl]

/-- C3: every transcript received while `isSystemSpeaking = true` that
does not contain the override phrase `'miranda'` is never processed as a
command — `handleResult` either performs wake-word handling or drops it,
so zero command-detected events result. -/
theorem suppressed_transcript_not_processed (isWake : String → Bool)
    (t : String) (h : containsSub t "miranda" = false) (u : String) :
    handleResult isWake true t ≠ ResultAction.process u ∧
    handleResult isWake true t ≠ ResultAction.processHighPriority u := by
  unfold handleResult
  by_cases hw : isWake t
  · rw [if_pos hw]
    exact ⟨nofun, nofun⟩
  · rw [if_neg (by simp [hw]), if_neg (by simp [h]), if_pos rfl]
    exact ⟨nofun, nofun⟩

/-- Witness for C3 at a concrete input: "hello" spoken during system
speech, with a wake predicate that matches nothing, is not processed as a
command. -/
theorem suppressed_transcript_not_processed_witness :
    containsSub "hello" "miranda" = false ∧
    handleResult (fun _ => false) true "hello" ≠ ResultAction.process "hello" :=
  ⟨by decide,
   (suppressed_transcript_not_processed (fun _ => false) "hello" (by decide)
      "hello").1⟩

/-- C10: in `handleResult` the wake-word check and the `'miranda'`
substring check run before the `isSystemSpeaking` suppression gate: a
wake-word transcript gets wake-word handling and a `'miranda'` transcript
gets high-priority command processing regardless of the speaking flag,
and only the remaining transcripts are dropped by suppression. -/
theorem wake_and_miranda_precede_suppression (isWake : String → Bool)
    (speaking : Bool) (t : String) :
    (isWake t = true → handleResult isWake speaking t = ResultAction.wakeWord) ∧
    (isWake t = false → containsSub t "miranda" = true →
      handleResult isWake speaking t = ResultAction.processHighPriority t) ∧
    (isWake t = false → containsSub t "miranda" = false → speaking = true →
      handleResult isWake speaking t = ResultAction.drop) := by
  refine ⟨fun hw => ?_, fun hw hm => ?_, fun hw hm hs => ?_⟩
  · unfold handleResult
    rw [if_pos hw]
  · unfold handleResult
    rw [if_neg (by simp [hw]), if_pos hm]
  · unfold handleResult
    rw [if_neg (by simp [hw]), if_neg (by simp [hm]), if_pos hs]

/-- Witness for C10 at a concrete input: with wake words detected by a
`'lark'` substring check, the transcript "read miranda rights" spoken
while the system is speaking is processed as a high-priority command. -/
theorem wake_and_miranda_precede_suppression_witness :
    handleResult (fun s => containsSub s "lark") true "read miranda rights"
      = ResultAction.processHighPriority "read miranda rights" :=
  (wake_and_miranda_precede_suppression (fun s => containsSub s "lark") true
      "read miranda rights").2.1 (by decide) (by decide)

/-- The stream-count invariant: exactly one platform capture stream is
active while `isListening`, none otherwise. -/
def StreamInv (s : VRState) : Prop :=
  s.activeStreams = if s.isListening then 1 else 0

lemma streamInv_init : StreamInv initState := rfl

lemma streamInv_step (s : VRState) (op : VROp) (h : StreamInv s) :
    StreamInv (voiceStep s op) := by
  cases op with
  | start ok =>
    show StreamInv (startListening ok s)
    unfold startListening
    by_cases hg : (s.isListening || s.startingListening) = true
    · rw [if_pos hg]
      exact h
    · have hl : s.isListening = false := by
        cases hsl : s.isListening
        · rfl
        · exact absurd (by simp [hsl]) hg
      rw [if_neg hg]
      cases ok with
      | true =>
        rw [if_pos rfl]
        unfold StreamInv at h ⊢
        simp [hl] at h
        simp [h]
      | false =>
        rw [if_neg (by simp)]
        unfold StreamInv at h ⊢
        simpa using h
  | stopManual =>
    unfold voiceStep stopListening StreamInv
    simp
  | streamEnded =>
    unfold voiceStep handleEnd StreamInv
    simp

lemma streamInv_run (ops : List VROp) (s : VRState) (h : StreamInv s) :
    StreamInv (ops.foldl voiceStep s) := by
  induction ops generalizing s with
  | nil => exact h
  | cons op rest ih => exact ih (voiceStep s op) (streamInv_step s op h)

/-- C4: for every sequence of start, stop and stream-end operations, at
most one capture stream is ever active; and a `startListening` call while
a session is already running or a start is in flight is a no-op. -/
theorem capture_single_stream :
    (∀ ops : List VROp, (voiceRun ops).activeStreams ≤ 1) ∧
    (∀ (ok : Bool) (s : VRState),
      s.isListening = true ∨ s.startingListening = true →
      startListening ok s = s) := by
  constructor
  · intro ops
    have h := streamInv_run ops initState streamInv_init
    unfold StreamInv at h
    rw [show voiceRun ops = ops.foldl voiceStep initState from rfl, h]
    split <;> norm_num
  · intro ok s hs
    unfold startListening
    rw [if_pos (by rcases hs with h | h <;> simp [h])]

/-- Witness for C4 at a concrete input: a second `startListening` while
already listening leaves the state untouched, and a trace of two start
calls keeps at most one stream. -/
theorem capture_single_stream_witness :
    startListening true { initState with isListening := true }
      = { initState with isListening := true } ∧
    (voiceRun [VROp.start true, VROp.start true]).activeStreams ≤ 1 :=
  ⟨capture_single_stream.2 true { initState with isListening := true }
     (Or.inl rfl),
   capture_single_stream.1 [VROp.start true, VROp.start true]⟩

lemma handleCommand_empty (s : CmdState) (command : String) (now : ℤ)
    (h : jsTrim command = "") :
    handleCommand s command now = (s, .ignoredEmpty) := by
  unfold handleCommand
  rw [if_pos h]

lemma handleCommand_dup (s : CmdState) (command : String) (now : ℤ)
    (h : jsTrim command ≠ "")
    (hd : jsTrim (jsToLower command) = s.lastCommand ∧
          now - s.lastCommandTime < 2000) :
    handleCommand s command now = (s, .droppedDuplicate) := by
  unfold handleCommand
  rw [if_neg h, if_pos hd]

lemma handleCommand_accepted (s : CmdState) (command : String) (now : ℤ)
    (h : jsTrim command ≠ "")
    (hd : ¬(jsTrim (jsToLower command) = s.lastCommand ∧
            now - s.lastCommandTime < 2000)) :
    handleCommand s command now
      = ({ lastCommand := jsTrim (jsToLower command), lastCommandTime := now },
         .accepted) := by
  unfold handleCommand
  rw [if_neg h, if_neg hd]

/-- C5 (claim as stated is false): the whitespace transcript `" "`
arriving 10000 ms after the previous command `"hello"` is not a duplicate
within 2 s, so the claim requires it to be recorded as the new previous
command — but `handleCommand` returns at the `!command?.trim()` guard
with the refs untouched. -/
theorem handleCommand_empty_not_recorded :
    ¬(jsTrim (jsToLower " ") = "hello" ∧ ((10000 : ℤ) - 0 < 2000)) ∧
    handleCommand { lastCommand := "hello", lastCommandTime := 0 } " " 10000
      = ({ lastCommand := "hello", lastCommandTime := 0 },
         CmdOutcome.ignoredEmpty) ∧
    (handleCommand { lastCommand := "hello", lastCommandTime := 0 } " " 10000).1
      ≠ { lastCommand := jsTrim (jsToLower " "), lastCommandTime := 10000 } := by
  refine ⟨by decide, ?_, by decide⟩
  exact handleCommand_empty _ _ _ (by decide)

/-- C5 (amended): a final transcript that trims to the empty string is
ignored without touching the stored previous command; a non-empty one
that, lower-cased and trimmed, equals the previous processed command and
arrives within 2000 ms of it is dropped silently with the refs unchanged;
any other non-empty one is recorded as the new previous command together
with its arrival time and accepted. -/
theorem handleCommand_dedupe_spec (s : CmdState) (command : String) (now : ℤ) :
    (jsTrim command = "" → handleCommand s command now = (s, .ignoredEmpty)) ∧
    (jsTrim command ≠ "" →
      jsTrim (jsToLower command) = s.lastCommand →
      now - s.lastCommandTime < 2000 →
      handleCommand s command now = (s, .droppedDuplicate)) ∧
    (jsTrim command ≠ "" →
      ¬(jsTrim (jsToLower command) = s.lastCommand ∧
        now - s.lastCommandTime < 2000) →
      handleCommand s command now
        = ({ lastCommand := jsTrim (jsToLower command), lastCommandTime := now },
           .accepted)) :=
  ⟨handleCommand_empty s command now,
   fun h h1 h2 => handleCommand_dup s command now h ⟨h1, h2⟩,
   handleCommand_accepted s command now⟩

/-- Witness for C5 at concrete inputs: `" Hello "` 1000 ms after the
processed command `"hello"` is dropped as a duplicate, and
`"Status check"` 5000 ms after it is recorded as the new previous
command. -/
theorem handleCommand_dedupe_spec_witness :
    handleCommand { lastCommand := "hello", lastCommandTime := 0 } " Hello " 1000
      = ({ lastCommand := "hello", lastCommandTime := 0 },
         CmdOutcome.droppedDuplicate) ∧
    handleCommand { lastCommand := "hello", lastCommandTime := 0 }
        "Status check" 5000
      = ({ lastCommand := "status check", lastCommandTime := 5000 },
         CmdOutcome.accepted) := by
  constructor
  · exact (handleCommand_dedupe_spec _ " Hello " 1000).2.1 (by decide) (by decide)
      (by decide)
  · have h := (handleCommand_dedupe_spec
        { lastCommand := "hello", lastCommandTime := 0 } "Status check" 5000).2.2
      (by decide) (by decide)
    rw [h]
    decide

lemma schedulesRestart_attempt (t : String) (a : ℕ) :
    schedulesRestart (some (attemptErrorRecovery t a))
      = !(t == "permission_timeout") := by
  unfold attemptErrorRecovery
  by_cases h1 : t = "network_error"
  · subst h1; rw [if_pos rfl]; rfl
  · by_cases h2 : t = "audio_capture_error" ∨ t = "device_busy"
    · rw [if_neg h1, if_pos h2]
      rcases h2 with h | h <;> subst h <;> rfl
    · by_cases h3 : t = "permission_timeout"
      · subst h3; rw [if_neg h1, if_neg h2, if_pos rfl]; rfl
      · by_cases h4 : t = "aborted"
        · subst h4; rw [if_neg h1, if_neg h2, if_neg h3, if_pos rfl]; rfl
        · rw [if_neg h1, if_neg h2, if_neg h3, if_neg h4]
          have hb : (t == "permission_timeout") = false := by simp [h3]
          rw [hb]
          rfl

/-- C7 (claim as stated is false): an error whose message is
`'Permission request timed out'` is classified `permission_timeout` with
`recoverable = true`, yet `attemptErrorRecovery` schedules no restart for
it — recovery is not attempted for every recoverable error. -/
theorem permission_timeout_recoverable_no_restart :
    classifyError "Error" "Permission request timed out"
      = ("permission_timeout", true) ∧
    schedulesRestart
        (handleErrorRecovery "Error" "Permission request timed out" 0)
      = false := by
  constructor <;> decide

/-- C7 (amended): `handleError` schedules (or immediately performs) a
restart exactly when the error is classified recoverable AND its type is
not `permission_timeout` (which, though recoverable, only re-prompts for
permission); errors from `NotAllowedError`/`PermissionDeniedError`
(classified `permission_denied`) and `NotFoundError`/
`DevicesNotFoundError` (classified `device_not_found`) are marked
`recoverable = false` and trigger no automatic retry. -/
theorem restart_iff_recoverable_non_timeout (name msg : String) (a : ℕ) :
    schedulesRestart (handleErrorRecovery name msg a)
      = ((classifyError name msg).2
          && !((classifyError name msg).1 == "permission_timeout")) ∧
    ((name = "NotAllowedError" ∨ name = "PermissionDeniedError" ∨
      name = "NotFoundError" ∨ name = "DevicesNotFoundError") →
      containsSub msg "Permission request timed out" = false →
      (classifyError name msg).2 = false ∧
      handleErrorRecovery name msg a = none) := by
  constructor
  · simp only [handleErrorRecovery]
    cases hc : (classifyError name msg).2
    · simp [hc, schedulesRestart]
    · simp [hc, schedulesRestart_attempt]
  · intro hname hmsg
    have hclass : (classifyError name msg).2 = false := by
      unfold classifyError
      rcases hname with h | h | h | h <;> subst h
      · rw [if_neg (by simp [hmsg]), if_pos (Or.inl rfl)]
      · rw [if_neg (by simp [hmsg]), if_pos (Or.inr rfl)]
      · rw [if_neg (by simp [hmsg]), if_neg (by decide), if_pos (Or.inl rfl)]
      · rw [if_neg (by simp [hmsg]), if_neg (by decide), if_pos (Or.inr rfl)]
    refine ⟨hclass, ?_⟩
    simp [handleErrorRecovery, hclass]

/-- Witness for C7 at a concrete input: a `NotAllowedError` is classified
non-recoverable and produces no recovery action. -/
theorem restart_iff_recoverable_non_timeout_witness :
    (classifyError "NotAllowedError" "denied").2 = false ∧
    handleErrorRecovery "NotAllowedError" "denied" 0 = none :=
  (restart_iff_recoverable_non_timeout "NotAllowedError" "denied" 0).2
    (Or.inl rfl) (by decide)

/-- C8 (claim as stated is false): `VoiceRecognitionService.handleResult`
never reads the `isFinal` flag — the non-wake, non-suppressed transcript
"call backup" is processed as a command even when the result is interim,
and an interim and a final result are handled identically; no
interim-transcript event is emitted by this handler. -/
theorem handleResult_ignores_isFinal :
    handleResultFull (fun _ => false) false "call backup" false
      = ResultAction.process "call backup" ∧
    handleResultFull (fun _ => false) false "call backup" false
      = handleResultFull (fun _ => false) false "call backup" true := by
  constructor
  · decide
  · rfl

/-- C8 (amended): the `useSpeechRecognition` hook's `onresult` is the
handler that distinguishes interim from final results — an interim result
dispatches a `lark-interim-transcript` event and a final result a
`lark-audio-detected` event whose transcript, when non-empty after
trimming and passing the 2-second de-duplication, is accepted as a
command; `VoiceRecognitionService.handleResult`, by contrast, handles
interim and final results identically. -/
theorem hook_distinguishes_interim_final (t : String) (conf : ℚ)
    (w : String → Bool) (sp fin : Bool) (s : CmdState) (now : ℤ) :
    hookOnresult t conf false = HookEvent.interimTranscript t conf false ∧
    hookOnresult t conf true = HookEvent.audioDetected t conf true ∧
    handleResultFull w sp t fin = handleResult w sp t ∧
    (jsTrim t ≠ "" →
      ¬(jsTrim (jsToLower t) = s.lastCommand ∧ now - s.lastCommandTime < 2000) →
      (handleCommand s t now).2 = CmdOutcome.accepted) := by
  refine ⟨rfl, rfl, rfl, fun h1 h2 => ?_⟩
  rw [handleCommand_accepted s t now h1 h2]

/-- Witness for C8 at concrete inputs: an interim "status check" yields
the interim-transcript event, and as a fresh final command it is
accepted. -/
theorem hook_distinguishes_interim_final_witness :
    hookOnresult "status check" 1 false
      = HookEvent.interimTranscript "status check" 1 false ∧
    (handleCommand { lastCommand := "", lastCommandTime := 0 }
        "status check" 5000).2 = CmdOutcome.accepted :=
  ⟨(hook_distinguishes_interim_final "status check" 1 (fun _ => false) false
      false { lastCommand := "", lastCommandTime := 0 } 5000).1,
   (hook_distinguishes_interim_final "status check" 1 (fun _ => false) false
      false { lastCommand := "", lastCommandTime := 0 } 5000).2.2.2
     (by decide) (by decide)⟩

/-- Well-formedness of the subject: every subscriber id and every id in
the delivery log is below the fresh-id counter. -/
def BusInv {α : Type} (s : EventBus α) : Prop :=
  (∀ i ∈ s.subscribers, i < s.nextId) ∧ (∀ p ∈ s.delivered, Prod.fst p < s.nextId)

lemma busInv_step {α : Type} (s : EventBus α) (op : BusOp α) (h : BusInv s) :
    BusInv (busStep s op) := by
  obtain ⟨h1, h2⟩ := h
  cases op with
  | subscribe =>
    constructor
    · intro i hi
      rcases List.mem_append.mp hi with hi | hi
      · exact lt_trans (h1 i hi) (Nat.lt_succ_self _)
      · simp only [List.mem_singleton] at hi
        subst hi
        exact Nat.lt_succ_self _
    · intro p hp
      exact lt_trans (h2 p hp) (Nat.lt_succ_self _)
  | unsubscribe j =>
    exact ⟨fun i hi => h1 i (List.mem_of_mem_filter hi), h2⟩
  | publish e =>
    refine ⟨h1, fun p hp => ?_⟩
    rcases List.mem_append.mp hp with hp | hp
    · exact h2 p hp
    · obtain ⟨i, hi, hpair⟩ := List.mem_map.mp hp
      cases hpair
      exact h1 i hi

lemma busInv_run {α : Type} (ops : List (BusOp α)) (s : EventBus α)
    (h : BusInv s) : BusInv (busRun s ops) := by
  induction ops generalizing s with
  | nil => exact h
  | cons op rest ih => exact ih (busStep s op) (busInv_step s op h)

lemma bus_delivered_mem {α : Type} (ops : List (BusOp α)) (s : EventBus α)
    (h : ℕ) (e : α) (hm : (h, e) ∈ (busRun s ops).delivered) :
    (h, e) ∈ s.delivered ∨ BusOp.publish e ∈ ops := by
  induction ops generalizing s with
  | nil => exact Or.inl hm
  | cons op rest ih =>
    rcases ih (busStep s op) hm with h1 | h1
    · cases op with
      | subscribe => exact Or.inl h1
      | unsubscribe j => exact Or.inl h1
      | publish f =>
        rcases List.mem_append.mp h1 with h2 | h2
        · exact Or.inl h2
        · obtain ⟨i, hi, hpair⟩ := List.mem_map.mp h2
          cases hpair
          exact Or.inr (List.mem_cons_self _ _)
    · exact Or.inr (List.mem_cons_of_mem _ h1)

/-- C9: in the subject semantics of
`VoiceRecognitionService.events`/`getEvents()`, a handler that subscribes
after a trace `pre` of publishes and (un)subscriptions only ever receives
events published after its subscription: any delivery it receives comes
from a publish in `post`, so an event published before it joined is never
replayed to it. -/
theorem subscriber_no_replay {α : Type} (pre post : List (BusOp α)) (e : α)
    (hm : ((busRun busInit pre).nextId, e)
        ∈ (busRun busInit (pre ++ BusOp.subscribe :: post)).delivered) :
    BusOp.publish e ∈ post := by
  have hsplit : busRun (busInit : EventBus α) (pre ++ BusOp.subscribe :: post)
      = busRun (busStep (busRun busInit pre) BusOp.subscribe) post := by
    unfold busRun
    rw [List.foldl_append]
    rfl
  rw [hsplit] at hm
  have hinv : BusInv (busRun (busInit : EventBus α) pre) :=
    busInv_run pre busInit ⟨by simp [busInit], by simp [busInit]⟩
  rcases bus_delivered_mem post _ _ _ hm with h1 | h1
  · exact absurd (hinv.2 _ h1) (lt_irrefl _)
  · exact h1

/-- Witness for C9 at a concrete trace: an event published before the
subscription (`7`) is never seen; the delivery of `9` to the late
subscriber implies `9` was published after it joined. -/
theorem subscriber_no_replay_witness :
    BusOp.publish 9 ∈ ([BusOp.publish 9] : List (BusOp ℕ)) :=
  subscriber_no_replay [BusOp.publish 7] [BusOp.publish 9] 9 (by decide)

end Larkx9
